import Mathlib

/-!
A shallow embedding of the `python-process` library (package `process`):
the process state record and lifecycle operations of
`process/core/process.py`, `process/process.py` (blocking variant) and
`process/asyncio/process.py` (suspension-capable variant), together with
theorems about the lifecycle state machine, the stream-ownership rules and
the cleanup sequences.

Modelling conventions:
- Bytes are `List Nat`.
- Python methods that mutate `self` and may raise become state-passing
  functions `Proc → Except PErr α × Proc`: the returned state is the record
  after the call, whether or not an exception propagated (Python exceptions
  do not roll back earlier mutations).
- The OS process-creation primitive, the child's behaviour on its pipes and
  the scheduling of process exit are external collaborators; they enter as
  an explicit `OSBehavior` record and as oracle parameters (`exitsInTime`,
  `code`) to `join`-like calls.
- Shell-style tokenization (`shlex.split`) is an external collaborator as
  well; argument resolution is parametrized by the tokenizer.
-/

deriving instance DecidableEq for Except

namespace PyProcess

/-- Byte strings, as lists of byte values. -/
abbrev Bytes := List Nat

/-- The error taxonomy: the five `ProcessError` subclasses of
`process/core/errors.py`, plus the OS-level broken-pipe/connection-reset
condition that the cleanup paths suppress. -/
inductive PErr where
  /-- `ProcessNotRunError` -/
  | notRun
  /-- `ProcessAlreadyRunError` -/
  | alreadyRun
  /-- `ProcessError("Failed to run process: ...")` raised by `run()`,
  wrapping the cause reported by the OS process-creation primitive. -/
  | failedToRun (cause : String)
  /-- `ProcessInvalidStreamError` -/
  | invalidStream
  /-- `ProcessTimeoutError` -/
  | timeout
  /-- `BrokenPipeError` / `ConnectionResetError` from the OS layer. -/
  | brokenPipe
deriving DecidableEq, Repr

/-- A standard-stream disposition as accepted by `Popen`-style creation:
`None` (inherit), `PIPE`, `DEVNULL`, or an existing descriptor/file object. -/
inductive Disposition where
  | inherit
  | pipe
  | devnull
  | fd (n : Nat)
deriving DecidableEq, Repr

/-- A disposition for `stderr`, which additionally accepts `STDOUT`
(merge into the stdout stream). -/
inductive ErrDisposition where
  | std (d : Disposition)
  /-- `STDOUT` -/
  | mergeStdout
deriving DecidableEq, Repr

/-- The `stdin` construction argument: either an in-memory byte buffer or a
standard disposition (`self._stdin` in `AbstractProcess.__init__`). -/
inductive StdinSpec where
  | buffer (data : Bytes)
  | std (d : Disposition)
deriving DecidableEq, Repr

/-- `run()` passes `stdin=PIPE` to the creation primitive when the stdin
argument was a byte buffer (`should_feed_stdin`), and the stored disposition
otherwise. -/
def StdinSpec.effectiveDisposition : StdinSpec → Disposition
  | .buffer _ => .pipe
  | .std d => d

/-- One token of the `arguments` construction argument: a string or a
path-like object (`fspath` of a path-like is its string form). -/
inductive ArgToken where
  | str (s : String)
  | path (p : String)
deriving DecidableEq, Repr

/-- `fspath(argument)` of `AbstractProcess.__init__`. -/
def ArgToken.fspath : ArgToken → String
  | .str s => s
  | .path p => p

/-- The `arguments` construction argument: a single shell-like command
string, a single path-like object, or a sequence of tokens. -/
inductive ArgInput where
  | str (s : String)
  | path (p : String)
  | seq (xs : List ArgToken)
deriving DecidableEq, Repr

/-- Argument resolution of `AbstractProcess.__init__`: a command string is
tokenized by `shlex.split` (an external collaborator, passed in as
`tokenize`), a single path-like is wrapped into a one-element vector, and
every token is converted to a string with `fspath`. -/
def resolveArguments (tokenize : String → List String) : ArgInput → List String
  | .str s => tokenize s
  | .path p => [p]
  | .seq xs => xs.map ArgToken.fspath

/-- The parent's writable end of the child's standard-input pipe
(`Popen.stdin` / asyncio `StreamWriter`). `breaksOnClose` records the OS
condition that the child's end is already gone, so that closing (flushing)
our end raises a broken-pipe/connection-reset error. -/
structure InStream where
  closed : Bool
  written : Bytes
  breaksOnClose : Bool
deriving DecidableEq, Repr

/-- `write(data)`: append to the bytes handed to the child. -/
def InStream.write (s : InStream) (data : Bytes) : InStream :=
  { s with written := s.written ++ data }

/-- `close()`: the descriptor is closed either way; the implied flush raises
a broken-pipe condition when the child's end is gone. -/
def InStream.close (s : InStream) : Except PErr Unit × InStream :=
  (if s.breaksOnClose then .error .brokenPipe else .ok (),
   { s with closed := true })

/-- The parent's readable end of the child's stdout/stderr pipe
(`Popen.stdout` / `Popen.stderr` / asyncio `StreamReader`). `buf` holds the
bytes the child has produced that have not yet been consumed by the parent. -/
structure OutStream where
  closed : Bool
  buf : Bytes
deriving DecidableEq, Repr

/-- `read()` with no size: return all remaining bytes, leaving the pipe
exhausted (at end-of-file a further read yields zero bytes). -/
def OutStream.read (s : OutStream) : Bytes × OutStream :=
  (s.buf, { s with buf := [] })

/-- `close()` on a reader. -/
def OutStream.close (s : OutStream) : OutStream :=
  { s with closed := true }

/-- The process handle returned by the OS creation primitive
(`subprocess.Popen` / `asyncio.subprocess.Process`): the three optional
stream objects (present exactly when the corresponding disposition was
`PIPE`) and the exit status (`returncode`, `None` while running). -/
structure Handle where
  stdin : Option InStream
  stdout : Option OutStream
  stderr : Option OutStream
  returncode : Option Int
deriving DecidableEq, Repr

/-- The externally determined behaviour of one process-creation attempt:
whether the creation primitive itself fails (and with what cause), the bytes
the child will produce on each of its two output pipes, and whether the
child's stdin end breaks before the parent closes its writing end. -/
structure OSBehavior where
  createFails : Option String
  childStdout : Bytes
  childStderr : Bytes
  stdinBreaks : Bool
deriving DecidableEq, Repr

/-- The handle produced by a successful creation call with the given
dispositions: a stream object exists exactly for a `PIPE` disposition, the
`STDOUT` merge disposition routes the child's stderr bytes into the stdout
pipe, and the process starts with `returncode = None`. Buffer size and
platform creation flags are passed to the OS primitive but do not affect the
modelled observable state. -/
def spawnHandle (os : OSBehavior) (stdin stdout : Disposition)
    (stderr : ErrDisposition) : Handle where
  stdin := if stdin = .pipe then some ⟨false, [], os.stdinBreaks⟩ else none
  stdout :=
    if stdout = .pipe then
      some ⟨false, os.childStdout ++
        (if stderr = .mergeStdout then os.childStderr else [])⟩
    else none
  stderr :=
    match stderr with
    | .std d => if d = .pipe then some ⟨false, os.childStderr⟩ else none
    | .mergeStdout => none
  returncode := none

/-- The process state record (`AbstractProcess` attributes): the resolved
argument vector, the three stored dispositions, the buffering hint, the two
byte accumulators `self._output` / `self._error`, and the optional handle
`self._process`. -/
structure Proc where
  arguments : List String
  stdinSpec : StdinSpec
  stdoutSpec : Disposition
  stderrSpec : ErrDisposition
  bufferSize : Nat
  output : Bytes
  error : Bytes
  process : Option Handle
deriving DecidableEq, Repr

/-- Construction (`Process.__init__` then `AbstractProcess.__init__`): the
concrete classes substitute a mode-specific default buffer size for `None`,
then the base class resolves the argument vector, stores the dispositions,
and initializes empty accumulators and no handle. -/
def mkProcess (tokenize : String → List String) (args : ArgInput)
    (stdin : StdinSpec) (stdout : Disposition) (stderr : ErrDisposition)
    (bufferSize : Option Nat) (defaultBufferSize : Nat) : Proc where
  arguments := resolveArguments tokenize args
  stdinSpec := stdin
  stdoutSpec := stdout
  stderrSpec := stderr
  bufferSize := bufferSize.getD defaultBufferSize
  output := []
  error := []
  process := none

/-- The `arguments` property: `return list(self._arguments)` — a fresh copy
of the resolved token vector (copying is the identity on immutable lists). -/
def Proc.argumentsProp (p : Proc) : List String :=
  p.arguments

/-- The `process` property (both variants): raises `ProcessNotRunError` when
no handle exists. -/
def Proc.getProcess (p : Proc) : Except PErr Handle :=
  match p.process with
  | none => .error .notRun
  | some h => .ok h

/-- The `stdin` property (identical in both variants): `self.process.stdin`,
raising `ProcessInvalidStreamError` when the stream is absent; the
`ProcessNotRunError` of the `process` property takes precedence. -/
def Proc.stdin (p : Proc) : Except PErr InStream := do
  let h ← p.getProcess
  match h.stdin with
  | none => .error .invalidStream
  | some s => .ok s

/-- The `stdout` property (identical in both variants). -/
def Proc.stdout (p : Proc) : Except PErr OutStream := do
  let h ← p.getProcess
  match h.stdout with
  | none => .error .invalidStream
  | some s => .ok s

/-- The `stderr` property (identical in both variants). -/
def Proc.stderr (p : Proc) : Except PErr OutStream := do
  let h ← p.getProcess
  match h.stderr with
  | none => .error .invalidStream
  | some s => .ok s

/-- The `running` property: `poll() is None` in the blocking variant,
`returncode is None` in the suspension-capable variant — both observe
whether the exit status has been reported. -/
def Proc.running (p : Proc) : Except PErr Bool :=
  (p.getProcess).map fun h => h.returncode.isNone

/-- The `exit_code` property: `self.process.returncode`. -/
def Proc.exitCode (p : Proc) : Except PErr (Option Int) :=
  (p.getProcess).map fun h => h.returncode

/-- Write back the stdin stream object after an operation on it (the Python
stream is mutated in place through the handle). -/
def Proc.setStdin (p : Proc) (s : InStream) : Proc :=
  { p with process := p.process.map fun h => { h with stdin := some s } }

/-- Write back the stdout stream object. -/
def Proc.setStdout (p : Proc) (s : OutStream) : Proc :=
  { p with process := p.process.map fun h => { h with stdout := some s } }

/-- Write back the stderr stream object. -/
def Proc.setStderr (p : Proc) (s : OutStream) : Proc :=
  { p with process := p.process.map fun h => { h with stderr := some s } }

/-- `terminate()`: delegates to the handle (`ProcessNotRunError` without
one); signal delivery itself does not change the modelled state — the exit
it provokes is observed by a later `join`. -/
def Proc.terminate (p : Proc) : Except PErr Unit × Proc :=
  match p.process with
  | none => (.error .notRun, p)
  | some _ => (.ok (), p)

/-- Sequencing of teardown steps: run the next step only when the previous
one did not raise (a propagating exception skips the rest of the method
body but keeps the state mutations already made). -/
def andThen (r : Except PErr Unit × Proc) (f : Proc → Except PErr Unit × Proc) :
    Except PErr Unit × Proc :=
  match r with
  | (.ok _, p) => f p
  | (.error e, p) => (.error e, p)

/-- The common first cleanup step of `close` / `__del__` / scope exit
(both variants): under `suppress(ProcessInvalidStreamError)` and
`suppress(BrokenPipeError, ConnectionResetError)`, close the stdin stream if
it exists and is not already closed. `ProcessNotRunError` from the `stdin`
property is caught by neither suppression and propagates. The
suspension-capable variant additionally awaits `wait_closed()`, a scheduling
step with no effect on the modelled state. -/
def Proc.closeStdinStep (p : Proc) : Except PErr Unit × Proc :=
  match p.stdin with
  | .error e => (if e = .invalidStream then .ok () else .error e, p)
  | .ok s =>
    if s.closed then (.ok (), p)
    else
      let (r, s') := s.close
      let p' := p.setStdin s'
      match r with
      | .ok _ => (.ok (), p')
      | .error e =>
        (if e = .brokenPipe ∨ e = .invalidStream then .ok () else .error e, p')

namespace Blocking

/-- `Process.run()` of the blocking variant (`process/process.py`): fail
with `ProcessAlreadyRunError` when a handle exists; invoke `subprocess.Popen`
with the effective dispositions (wrapping any creation failure in a
`ProcessError` without assigning a handle); when stdin was a byte buffer,
write the whole buffer to the stdin pipe and close it before returning. -/
def run (p : Proc) (os : OSBehavior) : Except PErr Unit × Proc :=
  if p.process.isSome then (.error .alreadyRun, p)
  else
    match os.createFails with
    | some cause => (.error (.failedToRun cause), p)
    | none =>
      let p :=
        { p with
          process := some (spawnHandle os p.stdinSpec.effectiveDisposition
            p.stdoutSpec p.stderrSpec) }
      match p.stdinSpec with
      | .std _ => (.ok (), p)
      | .buffer data =>
        match p.stdin with
        | .error e => (.error e, p)
        | .ok s =>
          let p := p.setStdin (s.write data)
          match p.stdin with
          | .error e => (.error e, p)
          | .ok s =>
            let (r, s') := s.close
            (r, p.setStdin s')

/-- `Process.join(timeout)` of the blocking variant: `Popen.wait(timeout)`,
turning `TimeoutExpired` into `ProcessTimeoutError`. `exitsInTime` is the OS
oracle for whether the process exits before the deadline (a wait without a
timeout blocks until it exits); `code` is the exit status the OS reports. -/
def join (p : Proc) (timeout : Option Nat) (exitsInTime : Bool) (code : Int) :
    Except PErr Unit × Proc :=
  match p.process with
  | none => (.error .notRun, p)
  | some h =>
    match h.returncode with
    | some _ => (.ok (), p)
    | none =>
      if timeout.isNone || exitsInTime then
        (.ok (), { p with process := some { h with returncode := some code } })
      else (.error .timeout, p)

/-- `Process.output(join)` of the blocking variant: optionally join with no
timeout, then, unless the stdout stream is closed, read the remaining bytes
into the accumulator; return the accumulator. -/
def output (p : Proc) (joinFlag : Bool) (code : Int) :
    Except PErr Bytes × Proc :=
  match (if joinFlag then join p none true code else (.ok (), p)) with
  | (.error e, p) => (.error e, p)
  | (.ok _, p) =>
    match p.stdout with
    | .error e => (.error e, p)
    | .ok s =>
      if s.closed then (.ok p.output, p)
      else
        let (data, s') := s.read
        let p' := p.setStdout s'
        let p'' := { p' with output := p'.output ++ data }
        (.ok p''.output, p'')

/-- `Process.error(join)` of the blocking variant (stderr analogue of
`output`). -/
def error (p : Proc) (joinFlag : Bool) (code : Int) :
    Except PErr Bytes × Proc :=
  match (if joinFlag then join p none true code else (.ok (), p)) with
  | (.error e, p) => (.error e, p)
  | (.ok _, p) =>
    match p.stderr with
    | .error e => (.error e, p)
    | .ok s =>
      if s.closed then (.ok p.error, p)
      else
        let (data, s') := s.read
        let p' := p.setStderr s'
        let p'' := { p' with error := p'.error ++ data }
        (.ok p''.error, p'')

/-- The stdout block of the blocking `close()`: under
`suppress(ProcessInvalidStreamError)`, if the stream is not closed, drain
the remaining bytes into the output accumulator and close the stream. -/
def drainCloseStdout (p : Proc) : Except PErr Unit × Proc :=
  match p.stdout with
  | .error e => (if e = .invalidStream then .ok () else .error e, p)
  | .ok s =>
    if s.closed then (.ok (), p)
    else
      let (data, s') := s.read
      let p' := p.setStdout s'.close
      (.ok (), { p' with output := p'.output ++ data })

/-- The stderr block of the blocking `close()`. -/
def drainCloseStderr (p : Proc) : Except PErr Unit × Proc :=
  match p.stderr with
  | .error e => (if e = .invalidStream then .ok () else .error e, p)
  | .ok s =>
    if s.closed then (.ok (), p)
    else
      let (data, s') := s.read
      let p' := p.setStderr s'.close
      (.ok (), { p' with error := p'.error ++ data })

/-- `Process.close()` of the blocking variant: close the stdin pipe
(suppressing broken-pipe conditions), terminate, join with no timeout, then
drain-and-close stdout and stderr (each block suppressing
`ProcessInvalidStreamError`). -/
def close (p : Proc) (code : Int) : Except PErr Unit × Proc :=
  andThen p.closeStdinStep fun p =>
  andThen p.terminate fun p =>
  andThen (join p none true code) fun p =>
  andThen (drainCloseStdout p) fun p =>
  drainCloseStderr p

/-- The stdout block of the blocking `__exit__`: under
`suppress(ProcessInvalidStreamError)`, if the stream is not closed, drain it
into the accumulator only when no exception is propagating, and close it in
either case. -/
def exitStdoutStep (p : Proc) (exceptional : Bool) : Except PErr Unit × Proc :=
  match p.stdout with
  | .error e => (if e = .invalidStream then .ok () else .error e, p)
  | .ok s =>
    if s.closed then (.ok (), p)
    else if exceptional then (.ok (), p.setStdout s.close)
    else
      let (data, s') := s.read
      let p' := p.setStdout s'.close
      (.ok (), { p' with output := p'.output ++ data })

/-- The stderr block of the blocking `__exit__`. -/
def exitStderrStep (p : Proc) (exceptional : Bool) : Except PErr Unit × Proc :=
  match p.stderr with
  | .error e => (if e = .invalidStream then .ok () else .error e, p)
  | .ok s =>
    if s.closed then (.ok (), p)
    else if exceptional then (.ok (), p.setStderr s.close)
    else
      let (data, s') := s.read
      let p' := p.setStderr s'.close
      (.ok (), { p' with error := p'.error ++ data })

/-- `Process.__exit__` of the blocking variant: close the stdin pipe; join
only when no exception is propagating (`exception_type is None`); then the
two stream blocks, draining only when no exception is propagating. -/
def scopeExit (p : Proc) (exceptional : Bool) (code : Int) :
    Except PErr Unit × Proc :=
  andThen p.closeStdinStep fun p =>
  andThen (if exceptional then (.ok (), p) else join p none true code) fun p =>
  andThen (exitStdoutStep p exceptional) fun p =>
  exitStderrStep p exceptional

end Blocking

namespace Async

/-- `Process.run()` of the suspension-capable variant
(`process/asyncio/process.py`): same lifecycle as the blocking variant via
`asyncio.subprocess.create_subprocess_exec`; the stdin feed additionally
awaits `drain()` and `wait_closed()`, completed before `run` returns —
scheduling steps with no effect on the modelled state. -/
def run (p : Proc) (os : OSBehavior) : Except PErr Unit × Proc :=
  if p.process.isSome then (.error .alreadyRun, p)
  else
    match os.createFails with
    | some cause => (.error (.failedToRun cause), p)
    | none =>
      let p :=
        { p with
          process := some (spawnHandle os p.stdinSpec.effectiveDisposition
            p.stdoutSpec p.stderrSpec) }
      match p.stdinSpec with
      | .std _ => (.ok (), p)
      | .buffer data =>
        match p.stdin with
        | .error e => (.error e, p)
        | .ok s =>
          let p := p.setStdin (s.write data)
          match p.stdin with
          | .error e => (.error e, p)
          | .ok s =>
            let (r, s') := s.close
            (r, p.setStdin s')

/-- `Process.join(timeout)` of the suspension-capable variant:
`asyncio.wait_for(process.wait(), timeout)`, turning the scheduler's
`TimeoutError` into `ProcessTimeoutError`; same oracle parameters as the
blocking variant. -/
def join (p : Proc) (timeout : Option Nat) (exitsInTime : Bool) (code : Int) :
    Except PErr Unit × Proc :=
  match p.process with
  | none => (.error .notRun, p)
  | some h =>
    match h.returncode with
    | some _ => (.ok (), p)
    | none =>
      if timeout.isNone || exitsInTime then
        (.ok (), { p with process := some { h with returncode := some code } })
      else (.error .timeout, p)

/-- `Process.output(join)` of the suspension-capable variant: optionally
join, then read unconditionally (an asyncio reader at end-of-file yields
zero bytes) into the accumulator; return the accumulator. -/
def output (p : Proc) (joinFlag : Bool) (code : Int) :
    Except PErr Bytes × Proc :=
  match (if joinFlag then join p none true code else (.ok (), p)) with
  | (.error e, p) => (.error e, p)
  | (.ok _, p) =>
    match p.stdout with
    | .error e => (.error e, p)
    | .ok s =>
      let (data, s') := s.read
      let p' := p.setStdout s'
      let p'' := { p' with output := p'.output ++ data }
      (.ok p''.output, p'')

/-- `Process.error(join)` of the suspension-capable variant. -/
def error (p : Proc) (joinFlag : Bool) (code : Int) :
    Except PErr Bytes × Proc :=
  match (if joinFlag then join p none true code else (.ok (), p)) with
  | (.error e, p) => (.error e, p)
  | (.ok _, p) =>
    match p.stderr with
    | .error e => (.error e, p)
    | .ok s =>
      let (data, s') := s.read
      let p' := p.setStderr s'
      let p'' := { p' with error := p'.error ++ data }
      (.ok p''.error, p'')

/-- The stdout block of the suspension-capable `close()`: under
`suppress(ProcessInvalidStreamError)`, drain the remaining bytes into the
output accumulator (the reader is not closed in this variant). -/
def drainStdout (p : Proc) : Except PErr Unit × Proc :=
  match p.stdout with
  | .error e => (if e = .invalidStream then .ok () else .error e, p)
  | .ok s =>
    let (data, s') := s.read
    let p' := p.setStdout s'
    (.ok (), { p' with output := p'.output ++ data })

/-- The stderr block of the suspension-capable `close()`. -/
def drainStderr (p : Proc) : Except PErr Unit × Proc :=
  match p.stderr with
  | .error e => (if e = .invalidStream then .ok () else .error e, p)
  | .ok s =>
    let (data, s') := s.read
    let p' := p.setStderr s'
    (.ok (), { p' with error := p'.error ++ data })

/-- `Process.close()` of the suspension-capable variant: close the stdin
pipe (suppressing broken-pipe conditions), terminate, join with no timeout,
then drain stdout and stderr. -/
def close (p : Proc) (code : Int) : Except PErr Unit × Proc :=
  andThen p.closeStdinStep fun p =>
  andThen p.terminate fun p =>
  andThen (join p none true code) fun p =>
  andThen (drainStdout p) fun p =>
  drainStderr p

/-- The stdout block of `__aexit__`: under
`suppress(ProcessInvalidStreamError)`, drain into the accumulator only when
no exception is propagating; nothing is touched otherwise. -/
def exitStdoutStep (p : Proc) (exceptional : Bool) : Except PErr Unit × Proc :=
  if exceptional then (.ok (), p) else drainStdout p

/-- The stderr block of `__aexit__`. -/
def exitStderrStep (p : Proc) (exceptional : Bool) : Except PErr Unit × Proc :=
  if exceptional then (.ok (), p) else drainStderr p

/-- `Process.__aexit__`: close the stdin pipe; join only when no exception
is propagating; then the two drain blocks, active only when no exception is
propagating. -/
def scopeExit (p : Proc) (exceptional : Bool) (code : Int) :
    Except PErr Unit × Proc :=
  andThen p.closeStdinStep fun p =>
  andThen (if exceptional then (.ok (), p) else join p none true code) fun p =>
  andThen (exitStdoutStep p exceptional) fun p =>
  exitStderrStep p exceptional

end Async

/-! ### Derived forms and sample records used by the theorems -/

/-- The handle held by the record after a successful spawn: the handle the
creation primitive returned, with the stdin stream fed and closed when the
stdin argument was a byte buffer. -/
def runResultHandle (p : Proc) (os : OSBehavior) : Handle :=
  let h := spawnHandle os p.stdinSpec.effectiveDisposition p.stdoutSpec p.stderrSpec
  match p.stdinSpec with
  | .buffer data => { h with stdin := some ⟨true, data, os.stdinBreaks⟩ }
  | .std _ => h

/-- A sample fresh record: `Process("sleep 1")` with the default
dispositions (stdin `None`, stdout `PIPE`, stderr `PIPE`). -/
def sampleFresh : Proc :=
  ⟨["sleep", "1"], .std .inherit, .pipe, .std .pipe, 8192, [], [], none⟩

/-- A sample fresh record whose stdin is an in-memory byte buffer. -/
def sampleBuffered : Proc :=
  ⟨["cat"], .buffer [72, 105], .pipe, .std .pipe, 8192, [], [], none⟩

/-- A sample fresh record with stdin `DEVNULL`, stdout `None` (inherited)
and stderr `STDOUT` (merged): none of its streams is a pipe. -/
def sampleNonPipe : Proc :=
  ⟨["x"], .std .devnull, .inherit, .mergeStdout, 0, [], [], none⟩

/-- Sample OS behaviour: creation succeeds and the child writes a few bytes
on each output pipe. -/
def sampleOSOk : OSBehavior := ⟨none, [104, 105], [101], false⟩

/-- Sample OS behaviour: the creation primitive fails (missing executable). -/
def sampleOSFail : OSBehavior := ⟨some "FileNotFoundError", [], [], false⟩

/-- A sample spawned record: `sampleFresh` after a successful `run()`. -/
def sampleSpawned : Proc := (Blocking.run sampleFresh sampleOSOk).2

/-- A sample record whose process has exited with status 0 and whose stdout
pipe is exhausted: `sampleSpawned` after one `output(join=true)` call. -/
def sampleExited : Proc := (Blocking.output sampleSpawned true 0).2

/-! ### Helper lemmas -/

theorem async_run_eq : Async.run = Blocking.run := rfl

theorem async_join_eq : Async.join = Blocking.join := rfl

theorem run_failure (p : Proc) (os : OSBehavior) (c : String)
    (hp : p.process = none) (hc : os.createFails = some c) :
    Blocking.run p os = (.error (.failedToRun c), p) ∧
    Async.run p os = (.error (.failedToRun c), p) := by
  constructor <;> simp [Blocking.run, Async.run, hp, hc]

theorem run_success (p : Proc) (os : OSBehavior)
    (hp : p.process = none) (hc : os.createFails = none) (hb : os.stdinBreaks = false) :
    Blocking.run p os = (.ok (), { p with process := some (runResultHandle p os) }) := by
  cases hps : p.stdinSpec with
  | std d =>
      simp [Blocking.run, runResultHandle, hp, hc, hps]
  | buffer data =>
      simp [Blocking.run, runResultHandle, hp, hc, hb, hps, Proc.stdin, Proc.getProcess,
        spawnHandle, StdinSpec.effectiveDisposition, InStream.write, InStream.close,
        Proc.setStdin, Bind.bind, Except.bind]

/-! ### Claims -/

/-- Claim C4: when the OS process-creation primitive fails, `run()` raises
the spawn-failure error wrapping the underlying cause and the record remains
`Unstarted`: the call returns the record exactly as it was, so no handle
exists afterwards and the accumulators are unchanged, in both execution
modes. -/
theorem spawn_failure_atomic (p : Proc) (os : OSBehavior) (c : String)
    (hp : p.process = none) (hc : os.createFails = some c) :
    Blocking.run p os = (.error (.failedToRun c), p) ∧
    Async.run p os = (.error (.failedToRun c), p) ∧
    (Blocking.run p os).2.process = none ∧
    (Blocking.run p os).2.output = p.output ∧
    (Blocking.run p os).2.error = p.error ∧
    (Async.run p os).2.process = none ∧
    (Async.run p os).2.output = p.output ∧
    (Async.run p os).2.error = p.error := by
  obtain ⟨h1, h2⟩ := run_failure p os c hp hc
  refine ⟨h1, h2, ?_, ?_, ?_, ?_, ?_, ?_⟩ <;> simp [h1, h2, hp]

theorem spawn_failure_atomic_witness :
    Blocking.run sampleFresh sampleOSFail =
      (.error (.failedToRun "FileNotFoundError"), sampleFresh) ∧
    Async.run sampleFresh sampleOSFail =
      (.error (.failedToRun "FileNotFoundError"), sampleFresh) ∧
    (Blocking.run sampleFresh sampleOSFail).2.process = none ∧
    (Blocking.run sampleFresh sampleOSFail).2.output = sampleFresh.output ∧
    (Blocking.run sampleFresh sampleOSFail).2.error = sampleFresh.error ∧
    (Async.run sampleFresh sampleOSFail).2.process = none ∧
    (Async.run sampleFresh sampleOSFail).2.output = sampleFresh.output ∧
    (Async.run sampleFresh sampleOSFail).2.error = sampleFresh.error :=
  spawn_failure_atomic sampleFresh sampleOSFail "FileNotFoundError" (by decide) (by decide)

/-- Claim C3 counterexample: a record whose spawn attempt failed is NOT
single-use — a subsequent `run()` on the very same record attempts process
creation again and can succeed, in both execution modes. -/
theorem failed_spawn_retry_counterexample :
    (Blocking.run sampleFresh sampleOSFail).1 =
      .error (.failedToRun "FileNotFoundError") ∧
    (Blocking.run (Blocking.run sampleFresh sampleOSFail).2 sampleOSOk).1 = .ok () ∧
    ((Blocking.run (Blocking.run sampleFresh sampleOSFail).2 sampleOSOk).2).process.isSome
      = true ∧
    (Async.run (Async.run sampleFresh sampleOSFail).2 sampleOSOk).1 = .ok () ∧
    ((Async.run (Async.run sampleFresh sampleOSFail).2 sampleOSOk).2).process.isSome
      = true := by
  decide

/-- Claim C3 (amended): only a successful spawn makes a record single-use.
After a `run()` attempt fails with the spawn-failure error, the record is
left exactly as it was (still `Unstarted`), and a subsequent `run()` on the
same record behaves exactly like a first `run()` — it attempts process
creation again rather than failing — in both execution modes. -/
theorem failed_spawn_leaves_record_retryable (p : Proc) (os os2 : OSBehavior) (c : String)
    (hp : p.process = none) (hc : os.createFails = some c) :
    Blocking.run p os = (.error (.failedToRun c), p) ∧
    Blocking.run (Blocking.run p os).2 os2 = Blocking.run p os2 ∧
    Async.run p os = (.error (.failedToRun c), p) ∧
    Async.run (Async.run p os).2 os2 = Async.run p os2 := by
  obtain ⟨h1, h2⟩ := run_failure p os c hp hc
  exact ⟨h1, by rw [h1], h2, by rw [h2]⟩

theorem failed_spawn_leaves_record_retryable_witness :
    Blocking.run sampleFresh sampleOSFail =
      (.error (.failedToRun "FileNotFoundError"), sampleFresh) ∧
    Blocking.run (Blocking.run sampleFresh sampleOSFail).2 sampleOSOk =
      Blocking.run sampleFresh sampleOSOk ∧
    Async.run sampleFresh sampleOSFail =
      (.error (.failedToRun "FileNotFoundError"), sampleFresh) ∧
    Async.run (Async.run sampleFresh sampleOSFail).2 sampleOSOk =
      Async.run sampleFresh sampleOSOk :=
  failed_spawn_leaves_record_retryable sampleFresh sampleOSFail sampleOSOk
    "FileNotFoundError" (by decide) (by decide)

/-- Claim C5: when stdin was supplied as a byte buffer, `run()` requests the
pipe disposition for stdin instead of passing the buffer, and before
returning (awaited to completion in the suspension-capable variant) writes
the entire buffer to the child's standard-input pipe and closes that pipe,
in both execution modes. -/
theorem stdin_buffer_fed_and_closed (p : Proc) (os : OSBehavior) (data : Bytes)
    (hp : p.process = none) (hs : p.stdinSpec = .buffer data)
    (hc : os.createFails = none) (hb : os.stdinBreaks = false) :
    p.stdinSpec.effectiveDisposition = .pipe ∧
    (Blocking.run p os).1 = .ok () ∧
    (Blocking.run p os).2.stdin = .ok ⟨true, data, false⟩ ∧
    (Async.run p os).1 = .ok () ∧
    (Async.run p os).2.stdin = .ok ⟨true, data, false⟩ := by
  have hrw := run_success p os hp hc hb
  have hstdin : ({ p with process := some (runResultHandle p os) } : Proc).stdin
      = .ok ⟨true, data, false⟩ := by
    simp [Proc.stdin, Proc.getProcess, runResultHandle, spawnHandle, hs, hb,
      Bind.bind, Except.bind]
  exact ⟨by simp [hs, StdinSpec.effectiveDisposition], by rw [hrw],
    by rw [hrw]; exact hstdin, by rw [async_run_eq, hrw],
    by rw [async_run_eq, hrw]; exact hstdin⟩

theorem stdin_buffer_fed_and_closed_witness :
    sampleBuffered.stdinSpec.effectiveDisposition = .pipe ∧
    (Blocking.run sampleBuffered sampleOSOk).1 = .ok () ∧
    (Blocking.run sampleBuffered sampleOSOk).2.stdin = .ok ⟨true, [72, 105], false⟩ ∧
    (Async.run sampleBuffered sampleOSOk).1 = .ok () ∧
    (Async.run sampleBuffered sampleOSOk).2.stdin = .ok ⟨true, [72, 105], false⟩ :=
  stdin_buffer_fed_and_closed sampleBuffered sampleOSOk [72, 105]
    (by decide) (by decide) (by decide) (by decide)

/-- Claim C6: on a fresh record a successful `run()` transitions
`Unstarted → Running` (a handle exists and `running` is true), and a second
`run()` on the same record fails with the already-run error without creating
another process (the record is returned unchanged), in both execution
modes. -/
theorem spawn_transitions_and_second_spawn_fails (p : Proc) (os os2 : OSBehavior)
    (hp : p.process = none) (hc : os.createFails = none) (hb : os.stdinBreaks = false) :
    (Blocking.run p os).1 = .ok () ∧
    (Blocking.run p os).2.running = .ok true ∧
    Blocking.run (Blocking.run p os).2 os2 =
      (.error .alreadyRun, (Blocking.run p os).2) ∧
    (Async.run p os).1 = .ok () ∧
    (Async.run p os).2.running = .ok true ∧
    Async.run (Async.run p os).2 os2 =
      (.error .alreadyRun, (Async.run p os).2) := by
  have hrw := run_success p os hp hc hb
  have hrun : ({ p with process := some (runResultHandle p os) } : Proc).running
      = .ok true := by
    cases hps : p.stdinSpec <;>
      simp [Proc.running, Proc.getProcess, runResultHandle, spawnHandle, hps, Except.map]
  have hsecond : Blocking.run { p with process := some (runResultHandle p os) } os2 =
      (.error .alreadyRun, { p with process := some (runResultHandle p os) }) := by
    simp [Blocking.run]
  exact ⟨by rw [hrw], by rw [hrw]; exact hrun, by rw [hrw]; exact hsecond,
    by rw [async_run_eq, hrw], by rw [async_run_eq, hrw]; exact hrun,
    by rw [async_run_eq, hrw]; exact hsecond⟩

theorem spawn_transitions_and_second_spawn_fails_witness :
    (Blocking.run sampleFresh sampleOSOk).1 = .ok () ∧
    (Blocking.run sampleFresh sampleOSOk).2.running = .ok true ∧
    Blocking.run (Blocking.run sampleFresh sampleOSOk).2 sampleOSOk =
      (.error .alreadyRun, (Blocking.run sampleFresh sampleOSOk).2) ∧
    (Async.run sampleFresh sampleOSOk).1 = .ok () ∧
    (Async.run sampleFresh sampleOSOk).2.running = .ok true ∧
    Async.run (Async.run sampleFresh sampleOSOk).2 sampleOSOk =
      (.error .alreadyRun, (Async.run sampleFresh sampleOSOk).2) :=
  spawn_transitions_and_second_spawn_fails sampleFresh sampleOSOk sampleOSOk
    (by decide) (by decide) (by decide)

/-- Claim C7: on a running record, `join(timeout)` raises the timeout error
when the deadline elapses before the process exits, and a timed-out join
alters no state — the call returns the record unchanged and `running` is
still true — so the caller may retry `join` (which succeeds once the process
exits in time) or escalate to `terminate`, in both execution modes. -/
theorem join_timeout_leaves_running (p : Proc) (h : Handle) (t : Nat) (code : Int)
    (hp : p.process = some h) (hr : h.returncode = none) :
    Blocking.join p (some t) false code = (.error .timeout, p) ∧
    Async.join p (some t) false code = (.error .timeout, p) ∧
    p.running = .ok true ∧
    (Blocking.join p (some t) true code).1 = .ok () ∧
    (Async.join p (some t) true code).1 = .ok () ∧
    (p.terminate).1 = .ok () := by
  refine ⟨?_, ?_, ?_, ?_, ?_, ?_⟩ <;>
    simp [Blocking.join, Async.join, Proc.running, Proc.getProcess, Proc.terminate,
      hp, hr, Except.map]

theorem join_timeout_leaves_running_witness :
    Blocking.join sampleSpawned (some 1) false 0 = (.error .timeout, sampleSpawned) ∧
    Async.join sampleSpawned (some 1) false 0 = (.error .timeout, sampleSpawned) ∧
    sampleSpawned.running = .ok true ∧
    (Blocking.join sampleSpawned (some 1) true 0).1 = .ok () ∧
    (Async.join sampleSpawned (some 1) true 0).1 = .ok () ∧
    (sampleSpawned.terminate).1 = .ok () :=
  join_timeout_leaves_running sampleSpawned (runResultHandle sampleFresh sampleOSOk)
    1 0 (by decide) (by decide)

/-- Claim C1 counterexample: `close()` on a record that was never spawned
does raise — the first cleanup step accesses the `stdin` property, whose
not-run error is caught by neither suppression — in both execution modes. -/
theorem close_unspawned_raises_counterexample :
    Blocking.close sampleFresh 0 = (.error .notRun, sampleFresh) ∧
    Async.close sampleFresh 0 = (.error .notRun, sampleFresh) := by
  decide

/-- Claim C1 (amended): on every record that has been spawned, `close()`
never raises, in both execution modes: every step of the close sequence that
fails with the invalid-stream error or a broken-pipe/connection-reset
condition is skipped and no error propagates to the caller. (On a record
that was never spawned, `close()` raises the not-run error instead, as the
abstract contract documents.) -/
theorem close_after_spawn_never_raises (p : Proc) (h : Handle) (code : Int)
    (hp : p.process = some h) :
    (Blocking.close p code).1 = .ok () ∧ (Async.close p code).1 = .ok () := by
  obtain ⟨args, sic, soc, sec, bs, out, err, proc⟩ := p
  obtain ⟨hin, hout, herr, hrc⟩ := h
  dsimp only at hp
  subst hp
  rcases hin with _ | ⟨_|_, hinw, _|_⟩ <;>
  rcases hout with _ | ⟨_|_, houtb⟩ <;>
  rcases herr with _ | ⟨_|_, herrb⟩ <;>
  rcases hrc with _ | rc <;>
  simp [Blocking.close, Async.close, andThen, Proc.closeStdinStep, Proc.terminate,
    Blocking.join, Async.join, Blocking.drainCloseStdout, Blocking.drainCloseStderr,
    Async.drainStdout, Async.drainStderr, Proc.stdin, Proc.stdout, Proc.stderr,
    Proc.getProcess, Bind.bind, Except.bind, InStream.close, OutStream.read,
    OutStream.close, Proc.setStdin, Proc.setStdout, Proc.setStderr]

theorem close_after_spawn_never_raises_witness :
    (Blocking.close sampleSpawned 0).1 = .ok () ∧
    (Async.close sampleSpawned 0).1 = .ok () :=
  close_after_spawn_never_raises sampleSpawned
    (runResultHandle sampleFresh sampleOSOk) 0 (by decide)

/-- Claim C2: when the scope exits because an exception is propagating, the
exit handler of both execution modes skips the join and the stdout/stderr
drain steps entirely: the two accumulators are unchanged, the exit status is
not collected (`exit_code` is unchanged), and the unread bytes of the
stdout/stderr pipes are not consumed. -/
theorem scope_exit_on_exception_skips_join_and_drain (p : Proc) (code : Int) :
    (Blocking.scopeExit p true code).2.output = p.output ∧
    (Blocking.scopeExit p true code).2.error = p.error ∧
    (Blocking.scopeExit p true code).2.exitCode = p.exitCode ∧
    Except.map OutStream.buf (Blocking.scopeExit p true code).2.stdout
      = Except.map OutStream.buf p.stdout ∧
    Except.map OutStream.buf (Blocking.scopeExit p true code).2.stderr
      = Except.map OutStream.buf p.stderr ∧
    (Async.scopeExit p true code).2.output = p.output ∧
    (Async.scopeExit p true code).2.error = p.error ∧
    (Async.scopeExit p true code).2.exitCode = p.exitCode ∧
    Except.map OutStream.buf (Async.scopeExit p true code).2.stdout
      = Except.map OutStream.buf p.stdout ∧
    Except.map OutStream.buf (Async.scopeExit p true code).2.stderr
      = Except.map OutStream.buf p.stderr := by
  obtain ⟨args, sic, soc, sec, bs, out, err, proc⟩ := p
  rcases proc with _ | ⟨hin, hout, herr, hrc⟩
  · simp [Blocking.scopeExit, Async.scopeExit, andThen, Proc.closeStdinStep,
      Proc.stdin, Proc.getProcess, Bind.bind, Except.bind]
  · rcases hin with _ | ⟨_|_, hinw, _|_⟩ <;>
    rcases hout with _ | ⟨_|_, houtb⟩ <;>
    rcases herr with _ | ⟨_|_, herrb⟩ <;>
    simp [Blocking.scopeExit, Async.scopeExit, andThen, Proc.closeStdinStep,
      Blocking.join, Async.join, Blocking.exitStdoutStep, Blocking.exitStderrStep,
      Async.exitStdoutStep, Async.exitStderrStep, Async.drainStdout,
      Async.drainStderr, Proc.stdin, Proc.stdout, Proc.stderr, Proc.getProcess,
      Proc.exitCode, Bind.bind, Except.bind, Except.map, InStream.close,
      OutStream.read, OutStream.close, Proc.setStdin, Proc.setStdout, Proc.setStderr]

/-- Claim C8: once the process has exited and the stdout pipe is exhausted,
two successive `output(join=true)` calls return the identical byte sequence
(the cached accumulator) both times — no duplication and no loss — in both
execution modes. -/
theorem output_idempotent_after_exit (p : Proc) (h : Handle) (s : OutStream)
    (c : Int) (code : Int) (hp : p.process = some h) (hr : h.returncode = some c)
    (hs : h.stdout = some s) (hbuf : s.buf = []) :
    (Blocking.output p true code).1 = .ok p.output ∧
    (Blocking.output (Blocking.output p true code).2 true code).1 = .ok p.output ∧
    (Async.output p true code).1 = .ok p.output ∧
    (Async.output (Async.output p true code).2 true code).1 = .ok p.output := by
  obtain ⟨args, sic, soc, sec, bs, out, err, proc⟩ := p
  obtain ⟨hin, hout, herr, hrc⟩ := h
  obtain ⟨scl, sbuf⟩ := s
  dsimp only at hp hr hs hbuf
  subst hp hr hs hbuf
  cases scl <;>
    simp [Blocking.output, Async.output, Blocking.join, Async.join,
      Proc.stdout, Proc.getProcess, Bind.bind, Except.bind, OutStream.read,
      Proc.setStdout]

theorem output_idempotent_after_exit_witness :
    (Blocking.output sampleExited true 0).1 = .ok sampleExited.output ∧
    (Blocking.output (Blocking.output sampleExited true 0).2 true 0).1
      = .ok sampleExited.output ∧
    (Async.output sampleExited true 0).1 = .ok sampleExited.output ∧
    (Async.output (Async.output sampleExited true 0).2 true 0).1
      = .ok sampleExited.output :=
  output_idempotent_after_exit sampleExited
    { runResultHandle sampleFresh sampleOSOk with
        returncode := some 0, stdout := some ⟨false, []⟩ }
    ⟨false, []⟩ 0 0 (by decide) (by decide) (by decide) (by decide)

/-- Claim C9: before spawn every stream property and convenience accumulator
call fails with the not-run error; after a spawn, each stream that was not
disposed as `pipe` — including stderr disposed as merge-into-stdout — fails
with the invalid-stream error, both through the raw handle property and
through `output()`/`error()`, in both execution modes. -/
theorem non_pipe_stream_access_fails (p : Proc) (os : OSBehavior) (code : Int)
    (hp : p.process = none) (hc : os.createFails = none) (hb : os.stdinBreaks = false) :
    p.stdin = .error .notRun ∧
    p.stdout = .error .notRun ∧
    p.stderr = .error .notRun ∧
    (Blocking.output p true code).1 = .error .notRun ∧
    (Blocking.error p true code).1 = .error .notRun ∧
    (Async.output p true code).1 = .error .notRun ∧
    (Async.error p true code).1 = .error .notRun ∧
    (p.stdoutSpec ≠ .pipe →
      (Blocking.run p os).2.stdout = .error .invalidStream ∧
      (Blocking.output (Blocking.run p os).2 true code).1 = .error .invalidStream ∧
      (Async.run p os).2.stdout = .error .invalidStream ∧
      (Async.output (Async.run p os).2 true code).1 = .error .invalidStream) ∧
    (p.stderrSpec ≠ .std .pipe →
      (Blocking.run p os).2.stderr = .error .invalidStream ∧
      (Blocking.error (Blocking.run p os).2 true code).1 = .error .invalidStream ∧
      (Async.run p os).2.stderr = .error .invalidStream ∧
      (Async.error (Async.run p os).2 true code).1 = .error .invalidStream) ∧
    (p.stderrSpec = .mergeStdout →
      (Blocking.error (Blocking.run p os).2 true code).1 = .error .invalidStream ∧
      (Async.error (Async.run p os).2 true code).1 = .error .invalidStream) ∧
    (p.stdinSpec.effectiveDisposition ≠ .pipe →
      (Blocking.run p os).2.stdin = .error .invalidStream ∧
      (Async.run p os).2.stdin = .error .invalidStream) := by
  have hrw := run_success p os hp hc hb
  refine ⟨?_, ?_, ?_, ?_, ?_, ?_, ?_, ?_, ?_, ?_, ?_⟩
  case _ => simp [Proc.stdin, Proc.getProcess, hp, Bind.bind, Except.bind]
  case _ => simp [Proc.stdout, Proc.getProcess, hp, Bind.bind, Except.bind]
  case _ => simp [Proc.stderr, Proc.getProcess, hp, Bind.bind, Except.bind]
  case _ => simp [Blocking.output, Blocking.join, hp]
  case _ => simp [Blocking.error, Blocking.join, hp]
  case _ => simp [Async.output, Async.join, hp]
  case _ => simp [Async.error, Async.join, hp]
  case _ =>
    intro h3
    rw [async_run_eq, hrw]
    cases hps : p.stdinSpec <;>
      simp [Blocking.output, Async.output, Blocking.join, Async.join,
        Proc.stdout, Proc.getProcess, runResultHandle, spawnHandle, hps, h3,
        Bind.bind, Except.bind]
  case _ =>
    intro h4
    rw [async_run_eq, hrw]
    rcases hse : p.stderrSpec with d | _
    · have hd : d ≠ Disposition.pipe := by
        intro hdp
        exact h4 (by rw [hse, hdp])
      cases hps : p.stdinSpec <;>
        simp [Blocking.error, Async.error, Blocking.join, Async.join,
          Proc.stderr, Proc.getProcess, runResultHandle, spawnHandle, hps, hse, hd,
          Bind.bind, Except.bind]
    · cases hps : p.stdinSpec <;>
        simp [Blocking.error, Async.error, Blocking.join, Async.join,
          Proc.stderr, Proc.getProcess, runResultHandle, spawnHandle, hps, hse,
          Bind.bind, Except.bind]
  case _ =>
    intro h5
    rw [async_run_eq, hrw]
    cases hps : p.stdinSpec <;>
      simp [Blocking.error, Async.error, Blocking.join, Async.join,
        Proc.stderr, Proc.getProcess, runResultHandle, spawnHandle, hps, h5,
        Bind.bind, Except.bind]
  case _ =>
    intro h6
    rw [async_run_eq, hrw]
    cases hps : p.stdinSpec with
    | buffer data =>
        exact absurd (by simp [hps, StdinSpec.effectiveDisposition]) h6
    | std d =>
        rw [hps] at h6
        simp only [StdinSpec.effectiveDisposition] at h6
        simp [Proc.stdin, Proc.getProcess, runResultHandle, spawnHandle, hps, h6,
          StdinSpec.effectiveDisposition, Bind.bind, Except.bind]

theorem non_pipe_stream_access_fails_witness :
    sampleNonPipe.stdin = .error .notRun ∧
    sampleNonPipe.stdout = .error .notRun ∧
    (Blocking.run sampleNonPipe sampleOSOk).2.stdout = .error .invalidStream ∧
    (Blocking.output (Blocking.run sampleNonPipe sampleOSOk).2 true 0).1
      = .error .invalidStream ∧
    (Blocking.error (Blocking.run sampleNonPipe sampleOSOk).2 true 0).1
      = .error .invalidStream ∧
    (Async.error (Async.run sampleNonPipe sampleOSOk).2 true 0).1
      = .error .invalidStream ∧
    (Blocking.run sampleNonPipe sampleOSOk).2.stdin = .error .invalidStream := by
  obtain ⟨c1, c2, c3, c4, c5, c6, c7, c8, c9, c10, c11⟩ :=
    non_pipe_stream_access_fails sampleNonPipe sampleOSOk 0
      (by decide) (by decide) (by decide)
  exact ⟨c1, c2, (c8 (by decide)).1, (c8 (by decide)).2.1, (c9 (by decide)).2.1,
    (c10 (by decide)).2, (c11 (by decide)).1⟩

/-! ### Preservation of the argument vector by every lifecycle operation -/

theorem andThen_arguments {a : List String} (r : Except PErr Unit × Proc)
    (f : Proc → Except PErr Unit × Proc) (hr : r.2.arguments = a)
    (hf : ∀ q, (f q).2.arguments = q.arguments) :
    (andThen r f).2.arguments = a := by
  obtain ⟨x, q⟩ := r
  cases x with
  | ok u => simpa [andThen, hf q] using hr
  | error e => simpa [andThen] using hr

theorem closeStdinStep_arguments (p : Proc) :
    (p.closeStdinStep).2.arguments = p.arguments := by
  obtain ⟨args, sic, soc, sec, bs, out, err, proc⟩ := p
  rcases proc with _ | ⟨_ | ⟨_|_, hinw, _|_⟩, hout, herr, hrc⟩ <;>
    simp [Proc.closeStdinStep, Proc.stdin, Proc.getProcess, Bind.bind, Except.bind,
      InStream.close, Proc.setStdin]

theorem terminate_arguments (p : Proc) : (p.terminate).2.arguments = p.arguments := by
  obtain ⟨args, sic, soc, sec, bs, out, err, proc⟩ := p
  rcases proc with _ | h <;> simp [Proc.terminate]

theorem join_arguments (p : Proc) (t : Option Nat) (e : Bool) (c : Int) :
    ((Blocking.join p t e c).2).arguments = p.arguments := by
  obtain ⟨args, sic, soc, sec, bs, out, err, proc⟩ := p
  rcases proc with _ | ⟨hin, hout, herr, _ | rc⟩ <;> cases t <;> cases e <;>
    simp [Blocking.join]

theorem run_arguments (p : Proc) (os : OSBehavior) :
    ((Blocking.run p os).2).arguments = p.arguments := by
  obtain ⟨args, sic, soc, sec, bs, out, err, proc⟩ := p
  obtain ⟨cf, cso, cse, cbr⟩ := os
  rcases proc with _ | h <;> rcases cf with _ | c <;> rcases sic with data | d <;>
    cases cbr <;>
    simp [Blocking.run, Proc.stdin, Proc.getProcess, spawnHandle,
      StdinSpec.effectiveDisposition, InStream.write, InStream.close, Proc.setStdin,
      Bind.bind, Except.bind]

theorem output_arguments (p : Proc) (j : Bool) (c : Int) :
    ((Blocking.output p j c).2).arguments = p.arguments := by
  obtain ⟨args, sic, soc, sec, bs, out, err, proc⟩ := p
  rcases proc with _ | ⟨hin, _ | ⟨_|_, sbuf⟩, herr, _ | rc⟩ <;> cases j <;>
    simp [Blocking.output, Blocking.join, Proc.stdout, Proc.getProcess,
      Bind.bind, Except.bind, OutStream.read, Proc.setStdout]

theorem error_arguments (p : Proc) (j : Bool) (c : Int) :
    ((Blocking.error p j c).2).arguments = p.arguments := by
  obtain ⟨args, sic, soc, sec, bs, out, err, proc⟩ := p
  rcases proc with _ | ⟨hin, hout, _ | ⟨_|_, sbuf⟩, _ | rc⟩ <;> cases j <;>
    simp [Blocking.error, Blocking.join, Proc.stderr, Proc.getProcess,
      Bind.bind, Except.bind, OutStream.read, Proc.setStderr]

theorem async_output_arguments (p : Proc) (j : Bool) (c : Int) :
    ((Async.output p j c).2).arguments = p.arguments := by
  obtain ⟨args, sic, soc, sec, bs, out, err, proc⟩ := p
  rcases proc with _ | ⟨hin, _ | ⟨_|_, sbuf⟩, herr, _ | rc⟩ <;> cases j <;>
    simp [Async.output, Async.join, Proc.stdout, Proc.getProcess,
      Bind.bind, Except.bind, OutStream.read, Proc.setStdout]

theorem async_error_arguments (p : Proc) (j : Bool) (c : Int) :
    ((Async.error p j c).2).arguments = p.arguments := by
  obtain ⟨args, sic, soc, sec, bs, out, err, proc⟩ := p
  rcases proc with _ | ⟨hin, hout, _ | ⟨_|_, sbuf⟩, _ | rc⟩ <;> cases j <;>
    simp [Async.error, Async.join, Proc.stderr, Proc.getProcess,
      Bind.bind, Except.bind, OutStream.read, Proc.setStderr]

theorem drainCloseStdout_arguments (p : Proc) :
    ((Blocking.drainCloseStdout p).2).arguments = p.arguments := by
  obtain ⟨args, sic, soc, sec, bs, out, err, proc⟩ := p
  rcases proc with _ | ⟨hin, _ | ⟨_|_, sbuf⟩, herr, hrc⟩ <;>
    simp [Blocking.drainCloseStdout, Proc.stdout, Proc.getProcess, Bind.bind,
      Except.bind, OutStream.read, OutStream.close, Proc.setStdout]

theorem drainCloseStderr_arguments (p : Proc) :
    ((Blocking.drainCloseStderr p).2).arguments = p.arguments := by
  obtain ⟨args, sic, soc, sec, bs, out, err, proc⟩ := p
  rcases proc with _ | ⟨hin, hout, _ | ⟨_|_, sbuf⟩, hrc⟩ <;>
    simp [Blocking.drainCloseStderr, Proc.stderr, Proc.getProcess, Bind.bind,
      Except.bind, OutStream.read, OutStream.close, Proc.setStderr]

theorem async_drainStdout_arguments (p : Proc) :
    ((Async.drainStdout p).2).arguments = p.arguments := by
  obtain ⟨args, sic, soc, sec, bs, out, err, proc⟩ := p
  rcases proc with _ | ⟨hin, _ | ⟨_|_, sbuf⟩, herr, hrc⟩ <;>
    simp [Async.drainStdout, Proc.stdout, Proc.getProcess, Bind.bind,
      Except.bind, OutStream.read, Proc.setStdout]

theorem async_drainStderr_arguments (p : Proc) :
    ((Async.drainStderr p).2).arguments = p.arguments := by
  obtain ⟨args, sic, soc, sec, bs, out, err, proc⟩ := p
  rcases proc with _ | ⟨hin, hout, _ | ⟨_|_, sbuf⟩, hrc⟩ <;>
    simp [Async.drainStderr, Proc.stderr, Proc.getProcess, Bind.bind,
      Except.bind, OutStream.read, Proc.setStderr]

theorem exitStdoutStep_arguments (p : Proc) (e : Bool) :
    ((Blocking.exitStdoutStep p e).2).arguments = p.arguments := by
  obtain ⟨args, sic, soc, sec, bs, out, err, proc⟩ := p
  rcases proc with _ | ⟨hin, _ | ⟨_|_, sbuf⟩, herr, hrc⟩ <;> cases e <;>
    simp [Blocking.exitStdoutStep, Proc.stdout, Proc.getProcess, Bind.bind,
      Except.bind, OutStream.read, OutStream.close, Proc.setStdout]

theorem exitStderrStep_arguments (p : Proc) (e : Bool) :
    ((Blocking.exitStderrStep p e).2).arguments = p.arguments := by
  obtain ⟨args, sic, soc, sec, bs, out, err, proc⟩ := p
  rcases proc with _ | ⟨hin, hout, _ | ⟨_|_, sbuf⟩, hrc⟩ <;> cases e <;>
    simp [Blocking.exitStderrStep, Proc.stderr, Proc.getProcess, Bind.bind,
      Except.bind, OutStream.read, OutStream.close, Proc.setStderr]

theorem close_arguments (p : Proc) (c : Int) :
    ((Blocking.close p c).2).arguments = p.arguments := by
  unfold Blocking.close
  exact andThen_arguments _ _ (closeStdinStep_arguments p) fun q =>
    andThen_arguments _ _ (terminate_arguments q) fun q2 =>
      andThen_arguments _ _ (join_arguments q2 none true c) fun q3 =>
        andThen_arguments _ _ (drainCloseStdout_arguments q3)
          drainCloseStderr_arguments

theorem async_close_arguments (p : Proc) (c : Int) :
    ((Async.close p c).2).arguments = p.arguments := by
  unfold Async.close
  exact andThen_arguments _ _ (closeStdinStep_arguments p) fun q =>
    andThen_arguments _ _ (terminate_arguments q) fun q2 =>
      andThen_arguments _ _ (join_arguments q2 none true c) fun q3 =>
        andThen_arguments _ _ (async_drainStdout_arguments q3)
          async_drainStderr_arguments

theorem scopeExit_arguments (p : Proc) (e : Bool) (c : Int) :
    ((Blocking.scopeExit p e c).2).arguments = p.arguments := by
  unfold Blocking.scopeExit
  refine andThen_arguments _ _ (closeStdinStep_arguments p) fun q => ?_
  refine andThen_arguments _ _ ?_ fun q2 =>
    andThen_arguments _ _ (exitStdoutStep_arguments q2 e)
      fun q3 => exitStderrStep_arguments q3 e
  cases e <;> simp [join_arguments]

theorem async_scopeExit_arguments (p : Proc) (e : Bool) (c : Int) :
    ((Async.scopeExit p e c).2).arguments = p.arguments := by
  unfold Async.scopeExit
  refine andThen_arguments _ _ (closeStdinStep_arguments p) fun q => ?_
  refine andThen_arguments _ _ ?_ fun q2 =>
    andThen_arguments _ _ ?_ fun q3 => ?_
  · cases e <;> simp [async_join_eq, join_arguments]
  · cases e <;> simp [Async.exitStdoutStep, async_drainStdout_arguments]
  · cases e <;> simp [Async.exitStderrStep, async_drainStderr_arguments]

/-- Claim C10: the `arguments` property returns exactly the token vector
resolved at construction (string input tokenized by the external shell
tokenizer, path-like input converted to a string vector), and it is
read-only: the accessor returns a copy of the stored vector, and no
lifecycle operation of either execution mode ever changes the record's
argument vector. -/
theorem arguments_fixed_and_readonly :
    (∀ (tokenize : String → List String) (args : ArgInput) (sin : StdinSpec)
      (sout : Disposition) (serr : ErrDisposition) (bsz : Option Nat) (dflt : Nat),
      (mkProcess tokenize args sin sout serr bsz dflt).argumentsProp
        = resolveArguments tokenize args) ∧
    (∀ p : Proc, p.argumentsProp = p.arguments) ∧
    (∀ (p : Proc) (os : OSBehavior), ((Blocking.run p os).2).arguments = p.arguments) ∧
    (∀ (p : Proc) (os : OSBehavior), ((Async.run p os).2).arguments = p.arguments) ∧
    (∀ (p : Proc) (t : Option Nat) (e : Bool) (c : Int),
      ((Blocking.join p t e c).2).arguments = p.arguments) ∧
    (∀ (p : Proc) (t : Option Nat) (e : Bool) (c : Int),
      ((Async.join p t e c).2).arguments = p.arguments) ∧
    (∀ (p : Proc) (j : Bool) (c : Int),
      ((Blocking.output p j c).2).arguments = p.arguments) ∧
    (∀ (p : Proc) (j : Bool) (c : Int),
      ((Async.output p j c).2).arguments = p.arguments) ∧
    (∀ (p : Proc) (j : Bool) (c : Int),
      ((Blocking.error p j c).2).arguments = p.arguments) ∧
    (∀ (p : Proc) (j : Bool) (c : Int),
      ((Async.error p j c).2).arguments = p.arguments) ∧
    (∀ (p : Proc) (c : Int), ((Blocking.close p c).2).arguments = p.arguments) ∧
    (∀ (p : Proc) (c : Int), ((Async.close p c).2).arguments = p.arguments) ∧
    (∀ (p : Proc) (e : Bool) (c : Int),
      ((Blocking.scopeExit p e c).2).arguments = p.arguments) ∧
    (∀ (p : Proc) (e : Bool) (c : Int),
      ((Async.scopeExit p e c).2).arguments = p.arguments) :=
  ⟨fun _ _ _ _ _ _ _ => rfl, fun _ => rfl, run_arguments,
    fun p os => async_run_eq ▸ run_arguments p os,
    join_arguments, fun p t e c => async_join_eq ▸ join_arguments p t e c,
    output_arguments, async_output_arguments, error_arguments,
    async_error_arguments, close_arguments, async_close_arguments,
    scopeExit_arguments, async_scopeExit_arguments⟩

end PyProcess
